import Mathlib

/-!
Verification of the browser-side client of simple-photo-management
(React frontend, `src/public/src/app.js` and
`src/public/src/data-table-nav.js`).

Shallow embedding: the root component's `this.state` becomes an explicit
`AppState` record and every `setState` a functional update. Each API
handler is split into its synchronous phase — which returns the new state
together with the list of `processRequest` calls it makes — and its
promise continuations (the `.then` and `.catch` callbacks), modelled as
separate functions consuming a response. JS object keys that may be
absent are modelled with `Option` (`none` = key absent; a key present
with value `undefined` is collapsed to `none`, which is observationally
equivalent everywhere the code reads such a key). `processRequest` lives
in `api.js`, which is not part of this source tree; per the spec it
fires one network call per invocation, so a dispatched request is
recorded at each `processRequest` call site.
-/

namespace SPM

/-- Pagination / query metadata of the record view-model
(`initialState.record.meta` in app.js). `page` is a JS number compared
with `< 1`, modelled as `Int`. -/
structure RecordMeta where
  page : Int
  limit : Nat
  pagerMainSize : Nat
  pagerEndSize : Nat
  pageOrderBy : String
  pageOrderDir : String
  previous : Option String
  next : Option String
  cacheControl : String
  search : String
deriving DecidableEq

/-- One element of `record.data.results`: a photo record as returned by
the GET-photos endpoint. `user_is_admin` is optional — the code checks
`hasOwnProperty("user_is_admin")` before reading it. -/
structure ResultItem where
  id : Int
  tags : List String
  user_is_admin : Option Bool
deriving DecidableEq

/-- `record.data`: the `results` key is always present on the stored
state (initialised to `[]` and never deleted); the top-level
`user_is_admin` key may be absent. -/
structure RecordData where
  results : List ResultItem
  user_is_admin : Option Bool
deriving DecidableEq

/-- The stored record view-model (`this.state.record`). -/
structure Record where
  meta : RecordMeta
  data : RecordData
deriving DecidableEq

/-- `this.state.authMeta`. -/
structure AuthMeta where
  authenticated : Bool
  userIsAdmin : Bool
deriving DecidableEq

/-- `this.state.message`. -/
structure Message where
  message : String
  messageClass : String
deriving DecidableEq

/-- `this.state.tagSuggestions`. -/
structure TagSuggestions where
  itemID : Option Int
  suggestions : List String
deriving DecidableEq

/-- The root component state (fields the handlers read or write;
`greeting` and `csrfToken` are constants never consulted by them). -/
structure AppState where
  record : Record
  authMeta : AuthMeta
  message : Message
  tagSuggestions : TagSuggestions
deriving DecidableEq

/-- Environment configuration consulted by `initialState`
(REACT_APP_ROWS_PER_TABLE, REACT_APP_PAGER_MAIN_SIZE,
REACT_APP_PAGER_END_SIZE). -/
structure EnvConfig where
  rowsPerTable : Nat
  pagerMainSize : Nat
  pagerEndSize : Nat
deriving DecidableEq

/-- `this.initialState` from the App constructor. -/
def initialState (env : EnvConfig) : AppState :=
  { record :=
      { meta :=
          { page := 1
            limit := env.rowsPerTable
            pagerMainSize := env.pagerMainSize
            pagerEndSize := env.pagerEndSize
            pageOrderBy := "record_updated"
            pageOrderDir := "-"
            previous := none
            next := none
            cacheControl := "no-cache"
            search := "" }
        data := { results := [], user_is_admin := none } }
    authMeta := { authenticated := false, userIsAdmin := false }
    message := { message := "", messageClass := "" }
    tagSuggestions := { itemID := none, suggestions := [] } }

/-- The `statusMessages` table from the App constructor. -/
structure StatusMessages where
  retag : String
  scan : String
  clean_db : String
deriving DecidableEq

def statusMessages : StatusMessages :=
  { retag :=
      "Processing of new photos & resync of existing photo tags in progress!"
    scan := "Processing of newly added photos in progress!"
    clean_db := "Database cleaning in progress!" }

/-- One entry of `this.apiOptions`. -/
structure ApiMode where
  requestType : String
  method : String
  desc : String
deriving DecidableEq

/-- The `this.apiOptions` object: symbolic request descriptors. -/
structure ApiOptionsT where
  GET_PHOTOS : ApiMode
  GET_TAGS : ApiMode
  PRUNE_TAGS : ApiMode
  BULK_REMOVE_TAGS : ApiMode
  SEARCH_AND_REPLACE : ApiMode
  REPROCESS_RECORD : ApiMode
  PROCESS_PHOTOS : ApiMode
  UPDATE_PHOTOS : ApiMode
  POST_AUTH : ApiMode
  POST_LOGOUT : ApiMode
  PATCH_CHANGE_PW : ApiMode
deriving DecidableEq

def apiOptions : ApiOptionsT :=
  { GET_PHOTOS :=
      { requestType := "get_photos", method := "GET"
        desc := "request to get photo data" }
    GET_TAGS :=
      { requestType := "get_tags", method := "GET"
        desc := "request to get photo tag data" }
    PRUNE_TAGS :=
      { requestType := "prune_tags", method := "DELETE"
        desc := "request to delete un-used tags" }
    BULK_REMOVE_TAGS :=
      { requestType := "bulk_remove_tags", method := "DELETE"
        desc := "request to bulk remove all tags from all mod_lock images & remove mod_lock" }
    SEARCH_AND_REPLACE :=
      { requestType := "search_and_replace", method := "GET"
        desc := "request to search & replace tags" }
    REPROCESS_RECORD :=
      { requestType := "reprocess", method := "GET"
        desc := "request to reprocess an image record" }
    PROCESS_PHOTOS :=
      { requestType := "process_photos", method := "GET"
        desc := "request to begin photo re-tagging operation" }
    UPDATE_PHOTOS :=
      { requestType := "update_photos", method := "PATCH"
        desc := "request to update the photo, e.g. add tags, mutations" }
    POST_AUTH :=
      { requestType := "post_auth", method := "POST"
        desc := "POST request to for authorization" }
    POST_LOGOUT :=
      { requestType := "post_logout", method := "POST"
        desc := "POST request to for logout of server" }
    PATCH_CHANGE_PW :=
      { requestType := "patch_change_pw", method := "PATCH"
        desc := "PATCH request to for changing password" } }

/-- One call to `processRequest` together with the arguments the app.js
call site passes. `api.js` is not part of this tree; per the spec it
fires one network call per `processRequest` invocation, so each
constructor records one dispatched request. -/
inductive RequestCall where
  | getPhotos (url : Option String) (record : Record)
  | getTags (term : String)
  | pruneTags
  | bulkRemoveTags
  | searchAndReplace (searchTerm replaceTerm : String)
  | reprocess (record : Record)
  | processPhotos (retag scan clean_db : Bool)
  | updatePhotos (id : Int) (tags : List String)
      (update_mode update_params : String)
deriving DecidableEq

/-- The `apiMode` descriptor each call site passes to `processRequest`. -/
def RequestCall.apiMode : RequestCall → ApiMode
  | .getPhotos _ _ => apiOptions.GET_PHOTOS
  | .getTags _ => apiOptions.GET_TAGS
  | .pruneTags => apiOptions.PRUNE_TAGS
  | .bulkRemoveTags => apiOptions.BULK_REMOVE_TAGS
  | .searchAndReplace _ _ => apiOptions.SEARCH_AND_REPLACE
  | .reprocess _ => apiOptions.REPROCESS_RECORD
  | .processPhotos _ _ _ => apiOptions.PROCESS_PHOTOS
  | .updatePhotos _ _ _ _ => apiOptions.UPDATE_PHOTOS

/-- `setMessage`: `Object.assign(this.state.message, {message, messageClass})`
replaces both fields. -/
def setMessage (st : AppState) (message messageClass : String) : AppState :=
  { st with message := { message := message, messageClass := messageClass } }

/-- `setAuthorized({role, state})`: updates `authMeta.userIsAdmin` to
`state` when `role` is "admin" and the value changed. -/
def setAuthorized (st : AppState) (role : String) (state : Bool) : AppState :=
  if role = "admin" then
    if state ≠ st.authMeta.userIsAdmin then
      { st with authMeta := { st.authMeta with userIsAdmin := state } }
    else st
  else st

/-- The admin-status computation inside `_setRecordState` (app.js lines
244-252): the `user_is_admin` field of the first result when present,
else the top-level `data.user_is_admin` when present, else `false`. -/
def adminStatusOf (d : RecordData) : Bool :=
  match d.results with
  | r :: _ =>
    match r.user_is_admin with
    | some b => b
    | none => d.user_is_admin.getD false
  | [] => d.user_is_admin.getD false

/-- `_setRecordState({newRecord})`: clamps `meta.page` to ≥ 1, mirrors the
admin status carried by the record data into `authMeta.userIsAdmin` (via
`setAuthorized`), and stores the record. -/
def _setRecordState (st : AppState) (newRecord : Record) : AppState :=
  let updatedPage : Int := if newRecord.meta.page < 1 then 1 else newRecord.meta.page
  let newRecord := { newRecord with meta := { newRecord.meta with page := updatedPage } }
  let adminStatus := adminStatusOf newRecord.data
  let st :=
    if adminStatus ≠ st.authMeta.userIsAdmin then
      setAuthorized st "admin" adminStatus
    else st
  { st with record := newRecord }

/-- The `response.data` of a GET-photos request. `results` is `none` when
the key is absent (or nullish) — the code branches on its JS truthiness;
a present array, even empty, is truthy. -/
structure GetPhotosResponseData where
  results : Option (List ResultItem)
  user_is_admin : Option Bool
deriving DecidableEq

/-- One element of the GET-tags response's `results`. -/
structure TagResult where
  tag : String
deriving DecidableEq

/-- The `response.data` of a GET-tags request. -/
structure GetTagsResponseData where
  results : List TagResult
deriving DecidableEq

/-- `Object.assign(recordCopy.data, {...response.data})` (app.js line
284): keys present on the response overwrite the stored copy's; keys
absent from the response leave the stored value in place. -/
def mergeData (old : RecordData) (resp : GetPhotosResponseData) : RecordData :=
  { results := resp.results.getD old.results
    user_is_admin :=
      match resp.user_is_admin with
      | some b => some b
      | none => old.user_is_admin }

/-- The record data stored by the `getRecordsHandler` success callback:
merged when `response.data.results` is truthy, else `results` is emptied
and the top-level `user_is_admin` taken from the response (app.js lines
283-288). -/
def mergedRecordData (old : RecordData) (resp : GetPhotosResponseData) : RecordData :=
  match resp.results with
  | some _ => mergeData old resp
  | none => { results := [], user_is_admin := resp.user_is_admin }

/-- Synchronous phase of `getRecordsHandler`: dispatches one GET_PHOTOS
request when authenticated, else nothing; state is unchanged until a
response arrives. -/
def getRecordsHandler (st : AppState) (record : Record) (url : Option String) :
    AppState × List RequestCall :=
  if st.authMeta.authenticated then (st, [.getPhotos url record])
  else (st, [])

/-- The `.then` callback of `getRecordsHandler`: optional success banner,
then the response data is merged into a copy of the stored record, the
copy's meta replaced by the meta of the `record` argument, and the result
stored via `_setRecordState`. -/
def getRecordsOnSuccess (st : AppState) (record : Record) (notifyResponse : Bool)
    (resp : GetPhotosResponseData) : AppState :=
  let st :=
    if notifyResponse then
      setMessage st "Records successfully retrieved!" "alert alert-success"
    else st
  let recordCopy := st.record
  let recordCopy :=
    { recordCopy with
      data := mergedRecordData recordCopy.data resp
      meta := record.meta }
  _setRecordState st recordCopy

/-- The `.catch` callback of `getRecordsHandler`: error banner, then the
`record` argument is (re)stored via `_setRecordState`. -/
def getRecordsOnFailure (st : AppState) (record : Record) : AppState :=
  let st := setMessage st "An API error has occurred" "alert alert-danger"
  _setRecordState st record

/-- Synchronous phase of `reprocessRecordHandler`: dispatches one
REPROCESS_RECORD request when authenticated and a record was given; in
every case the trailing `setState` clears `tagSuggestions`. -/
def reprocessRecordHandler (st : AppState) (record : Option Record) :
    AppState × List RequestCall :=
  let calls :=
    match record with
    | some r => if st.authMeta.authenticated then [RequestCall.reprocess r] else []
    | none => []
  ({ st with tagSuggestions := { itemID := none, suggestions := [] } }, calls)

/-- The `.then` callback of `reprocessRecordHandler`: optional banner,
then a follow-up `getRecordsHandler()` with default arguments. -/
def reprocessRecordOnSuccess (st : AppState) (notifyResponse : Bool) :
    AppState × List RequestCall :=
  let st :=
    if notifyResponse then
      setMessage st "Reprocessing task initiated!" "alert alert-success"
    else st
  getRecordsHandler st st.record none

/-- The `.catch` callback of `reprocessRecordHandler`. -/
def reprocessRecordOnFailure (st : AppState) : AppState :=
  setMessage st "An API error has occurred" "alert alert-danger"

/-- Synchronous phase of `tagSuggestionsHandler`: dispatches one GET_TAGS
request when authenticated and the term is truthy (non-empty); in every
case the trailing `setState` clears `tagSuggestions` — this runs before
any response is applied. -/
def tagSuggestionsHandler (st : AppState) (term : String) :
    AppState × List RequestCall :=
  let calls :=
    if st.authMeta.authenticated && !(term == "") then [RequestCall.getTags term]
    else []
  ({ st with tagSuggestions := { itemID := none, suggestions := [] } }, calls)

/-- The `.then` callback of `tagSuggestionsHandler`: optional banner, then
`tagSuggestions` is set to the closed-over `itemID` and the `tag` field of
each response result, in order. -/
def tagSuggestionsOnSuccess (st : AppState) (itemID : Option Int)
    (notifyResponse : Bool) (resp : GetTagsResponseData) : AppState :=
  let st :=
    if notifyResponse then
      setMessage st "Tags successfully retrieved!" "alert alert-success"
    else st
  { st with
    tagSuggestions :=
      { itemID := itemID, suggestions := resp.results.map (fun r => r.tag) } }

/-- The `.catch` callback of `tagSuggestionsHandler`. -/
def tagSuggestionsOnFailure (st : AppState) : AppState :=
  setMessage st "An API error has occurred" "alert alert-danger"

/-- Synchronous phase of `searchAndReplaceHandler`: dispatches one
SEARCH_AND_REPLACE request when authenticated and both terms are truthy. -/
def searchAndReplaceHandler (st : AppState) (searchTerm replaceTerm : String) :
    AppState × List RequestCall :=
  if st.authMeta.authenticated && !(searchTerm == "") && !(replaceTerm == "") then
    (st, [.searchAndReplace searchTerm replaceTerm])
  else (st, [])

/-- The `.then` callback of `searchAndReplaceHandler`. -/
def searchAndReplaceOnSuccess (st : AppState) (notifyResponse : Bool) : AppState :=
  if notifyResponse then
    setMessage st
      "Tag replacement task successfully initiated! Please refresh the dataset in a few moments to view the changes."
      "alert alert-success"
  else st

/-- The `.catch` callback of `searchAndReplaceHandler`. -/
def searchAndReplaceOnFailure (st : AppState) : AppState :=
  setMessage st "An API error has occurred" "alert alert-danger"

/-- Synchronous phase of `handlePruneTags`: dispatches one PRUNE_TAGS
request when authenticated — the admin flag is not consulted. -/
def handlePruneTags (st : AppState) : AppState × List RequestCall :=
  if st.authMeta.authenticated then (st, [.pruneTags]) else (st, [])

/-- The `.then` callback of `handlePruneTags`. -/
def handlePruneTagsOnSuccess (st : AppState) (notifyResponse : Bool) : AppState :=
  if notifyResponse then
    setMessage st "Tag pruning initiated!" "alert alert-success"
  else st

/-- The `.catch` callback of `handlePruneTags`. -/
def handlePruneTagsOnFailure (st : AppState) : AppState :=
  setMessage st "An API error has occurred" "alert alert-danger"

/-- Synchronous phase of `handleBulkRemoveTags`: dispatches one
BULK_REMOVE_TAGS request when authenticated — the admin flag is not
consulted. -/
def handleBulkRemoveTags (st : AppState) : AppState × List RequestCall :=
  if st.authMeta.authenticated then (st, [.bulkRemoveTags]) else (st, [])

/-- The `.then` callback of `handleBulkRemoveTags`. -/
def handleBulkRemoveTagsOnSuccess (st : AppState) (notifyResponse : Bool) : AppState :=
  if notifyResponse then
    setMessage st "Tag removal initiated!" "alert alert-success"
  else st

/-- The `.catch` callback of `handleBulkRemoveTags`. -/
def handleBulkRemoveTagsOnFailure (st : AppState) : AppState :=
  setMessage st "An API error has occurred" "alert alert-danger"

/-- Synchronous phase of `handleProcessPhotos`: dispatches one
PROCESS_PHOTOS request with the query flags when authenticated — the
admin flag is not consulted. -/
def handleProcessPhotos (st : AppState) (retag scan clean_db : Bool) :
    AppState × List RequestCall :=
  if st.authMeta.authenticated then (st, [.processPhotos retag scan clean_db])
  else (st, [])

/-- The `.then` callback of `handleProcessPhotos`: banner chosen by the
flag that was set (retag, then scan, then clean_db, else empty). -/
def handleProcessPhotosOnSuccess (st : AppState) (retag scan clean_db : Bool)
    (notifyResponse : Bool) : AppState :=
  if notifyResponse then
    setMessage st
      (if retag then statusMessages.retag
       else if scan then statusMessages.scan
       else if clean_db then statusMessages.clean_db
       else "")
      "alert alert-success"
  else st

/-- The `.catch` callback of `handleProcessPhotos` — note the suffixed
message text. -/
def handleProcessPhotosOnFailure (st : AppState) : AppState :=
  setMessage st "An API error has occurred. Photo processing initiation failed!"
    "alert alert-danger"

/-- Synchronous phase of `handleUpdate`: dispatches one UPDATE_PHOTOS
request carrying the item id, tags and update parameters when
authenticated. -/
def handleUpdate (st : AppState) (recordItemId : Int) (tags : List String)
    (updateMode updateParams : String) : AppState × List RequestCall :=
  if st.authMeta.authenticated then
    (st, [.updatePhotos recordItemId tags updateMode updateParams])
  else (st, [])

/-- `Object.assign(recordCopy.data.results[idx], response.data)` (app.js
line 545): fields present on the response overwrite the item's, an absent
optional key leaves the stored value. -/
def mergeItem (old : ResultItem) (resp : ResultItem) : ResultItem :=
  { id := resp.id
    tags := resp.tags
    user_is_admin :=
      match resp.user_is_admin with
      | some b => some b
      | none => old.user_is_admin }

/-- The `.then` callback of `handleUpdate`: the response body is merged
into every stored result with a matching id, the record is stored via
`_setRecordState`, then the optional banner is set. -/
def handleUpdateOnSuccess (st : AppState) (notifyResponse : Bool)
    (resp : ResultItem) : AppState :=
  let recordCopy := st.record
  let results :=
    recordCopy.data.results.map fun r =>
      if r.id = resp.id then mergeItem r resp else r
  let st :=
    _setRecordState st
      { recordCopy with data := { recordCopy.data with results := results } }
  if notifyResponse then
    setMessage st "Updating tags succeeded!" "alert alert-success"
  else st

/-- The `.catch` callback of `handleUpdate` — note the suffixed message
text. -/
def handleUpdateOnFailure (st : AppState) : AppState :=
  setMessage st "An API error has occurred. Updating tags failed!"
    "alert alert-danger"

/-- `setAuthentication`: sets `authenticated` from session-storage token
presence, then (in the `setState` callback) runs `getRecordsHandler` with
default arguments. -/
def setAuthentication (st : AppState) (hasToken : Bool) :
    AppState × List RequestCall :=
  let st := { st with authMeta := { st.authMeta with authenticated := hasToken } }
  getRecordsHandler st st.record none

/-- Every modelled transition of the App component: each handler's
synchronous phase and, as separate operations, each promise
continuation — a continuation operation can only occur after the
corresponding request has resolved, which is how the embedding phases
"dispatch" before "response applied". Arguments of continuation
operations are the values the JS callbacks close over. -/
inductive Op where
  | opSetAuthentication (hasToken : Bool)
  | opGetRecords (record : Record) (url : Option String)
  | opGetRecordsSuccess (record : Record) (notifyResponse : Bool)
      (resp : GetPhotosResponseData)
  | opGetRecordsFailure (record : Record)
  | opReprocess (record : Option Record)
  | opReprocessSuccess (notifyResponse : Bool)
  | opReprocessFailure
  | opTagSuggestions (term : String)
  | opTagSuggestionsSuccess (itemID : Option Int) (notifyResponse : Bool)
      (resp : GetTagsResponseData)
  | opTagSuggestionsFailure
  | opSearchAndReplace (searchTerm replaceTerm : String)
  | opSearchAndReplaceSuccess (notifyResponse : Bool)
  | opSearchAndReplaceFailure
  | opPruneTags
  | opPruneTagsSuccess (notifyResponse : Bool)
  | opPruneTagsFailure
  | opBulkRemoveTags
  | opBulkRemoveTagsSuccess (notifyResponse : Bool)
  | opBulkRemoveTagsFailure
  | opProcessPhotos (retag scan clean_db : Bool)
  | opProcessPhotosSuccess (retag scan clean_db notifyResponse : Bool)
  | opProcessPhotosFailure
  | opUpdate (recordItemId : Int) (tags : List String)
      (updateMode updateParams : String)
  | opUpdateSuccess (notifyResponse : Bool) (resp : ResultItem)
  | opUpdateFailure
deriving DecidableEq

/-- Applying one operation: the new component state and the requests
dispatched by that phase. -/
def applyOp (op : Op) (st : AppState) : AppState × List RequestCall :=
  match op with
  | .opSetAuthentication hasToken => setAuthentication st hasToken
  | .opGetRecords record url => getRecordsHandler st record url
  | .opGetRecordsSuccess record notifyResponse resp =>
    (getRecordsOnSuccess st record notifyResponse resp, [])
  | .opGetRecordsFailure record => (getRecordsOnFailure st record, [])
  | .opReprocess record => reprocessRecordHandler st record
  | .opReprocessSuccess notifyResponse => reprocessRecordOnSuccess st notifyResponse
  | .opReprocessFailure => (reprocessRecordOnFailure st, [])
  | .opTagSuggestions term => tagSuggestionsHandler st term
  | .opTagSuggestionsSuccess itemID notifyResponse resp =>
    (tagSuggestionsOnSuccess st itemID notifyResponse resp, [])
  | .opTagSuggestionsFailure => (tagSuggestionsOnFailure st, [])
  | .opSearchAndReplace searchTerm replaceTerm =>
    searchAndReplaceHandler st searchTerm replaceTerm
  | .opSearchAndReplaceSuccess notifyResponse =>
    (searchAndReplaceOnSuccess st notifyResponse, [])
  | .opSearchAndReplaceFailure => (searchAndReplaceOnFailure st, [])
  | .opPruneTags => handlePruneTags st
  | .opPruneTagsSuccess notifyResponse => (handlePruneTagsOnSuccess st notifyResponse, [])
  | .opPruneTagsFailure => (handlePruneTagsOnFailure st, [])
  | .opBulkRemoveTags => handleBulkRemoveTags st
  | .opBulkRemoveTagsSuccess notifyResponse =>
    (handleBulkRemoveTagsOnSuccess st notifyResponse, [])
  | .opBulkRemoveTagsFailure => (handleBulkRemoveTagsOnFailure st, [])
  | .opProcessPhotos retag scan clean_db => handleProcessPhotos st retag scan clean_db
  | .opProcessPhotosSuccess retag scan clean_db notifyResponse =>
    (handleProcessPhotosOnSuccess st retag scan clean_db notifyResponse, [])
  | .opProcessPhotosFailure => (handleProcessPhotosOnFailure st, [])
  | .opUpdate recordItemId tags updateMode updateParams =>
    handleUpdate st recordItemId tags updateMode updateParams
  | .opUpdateSuccess notifyResponse resp =>
    (handleUpdateOnSuccess st notifyResponse resp, [])
  | .opUpdateFailure => (handleUpdateOnFailure st, [])

namespace DataTableNav

/-- The local state of the `DataTableNav` component (`useState` hooks). -/
structure NavState where
  term : String
  replaceTerm : String
  sar : Bool
deriving DecidableEq

/-- One character of the class in `validateTerm`'s regular expression
`[a-zA-Z\d./+\-?:"|() ]` together with the apostrophe (code 39) and
double quote (code 34): JS `\d` is the ASCII digits and `a-zA-Z` the
ASCII letters. -/
def termChar (c : Char) : Bool :=
  c.isAlpha || c.isDigit || c == '.' || c == '/' || c == '+' || c == '-' ||
    c == Char.ofNat 39 || c == '?' || c == ':' || c == Char.ofNat 34 ||
    c == '|' || c == '(' || c == ')' || c == ' '

/-- `validateTerm(value)`: the regex anchors at both ends with a `*`
repeat, so it accepts exactly the strings all of whose characters lie in
the class; on acceptance the input is returned, otherwise the closed-over
`term` — the current *search* term, whichever field is being edited. -/
def validateTerm (term : String) (value : String) : String :=
  if value.data.all termChar then value else term

/-- `handleChange(e)`: when not in search-and-replace mode the validated
value is also passed to `handleSearch` (second component, `none`
otherwise); the stored search term becomes the validated value. -/
def handleChange (ns : NavState) (value : String) : NavState × Option String :=
  let searched := if !ns.sar then some (validateTerm ns.term value) else none
  ({ ns with term := validateTerm ns.term value }, searched)

/-- `handleReplaceChange(e)`: the stored replace term becomes
`validateTerm(value)` — whose fallback is the *search* term `ns.term`,
not the previous replace term. -/
def handleReplaceChange (ns : NavState) (value : String) : NavState :=
  { ns with replaceTerm := validateTerm ns.term value }

/-- The record the refresh callback passes to `handleGetRecords`:
`Object.assign(record.meta, { page: 1 })` then the same record object. -/
def getRecords (record : Record) : Record :=
  { record with meta := { record.meta with page := 1 } }

/-- The actions a `DataTableNav` button click can invoke. -/
inductive NavAction where
  | getRecords
  | processClick (scan retag clean_db : Bool)
  | pruneTags
  | bulkRemoveTagsUnlock
  | searchAndReplaceSwitch
  | handleReplace
deriving DecidableEq

/-- A rendered toolbar button: the attached click action (`none` models
`onClick={null}`) and the `disabled` attribute. -/
structure NavButton where
  onClick : Option NavAction
  disabled : Bool
deriving DecidableEq

/-- The green refresh button: always enabled, always wired to
`getRecords`. -/
def refreshButton : NavButton :=
  { onClick := some .getRecords, disabled := false }

/-- The `+` (scan) button: wired only for admins, disabled otherwise. -/
def scanButton (userIsAdmin : Bool) : NavButton :=
  { onClick := if userIsAdmin then some (.processClick true false false) else none
    disabled := !userIsAdmin }

/-- The tags (retag) button. -/
def retagButton (userIsAdmin : Bool) : NavButton :=
  { onClick := if userIsAdmin then some (.processClick false true false) else none
    disabled := !userIsAdmin }

/-- The broom (clean_db) button. -/
def cleanButton (userIsAdmin : Bool) : NavButton :=
  { onClick := if userIsAdmin then some (.processClick false false true) else none
    disabled := !userIsAdmin }

/-- The prune-tags button. -/
def pruneButton (userIsAdmin : Bool) : NavButton :=
  { onClick := if userIsAdmin then some .pruneTags else none
    disabled := !userIsAdmin }

/-- The bulk-remove-tags / unlock button. -/
def bulkRemoveButton (userIsAdmin : Bool) : NavButton :=
  { onClick := if userIsAdmin then some .bulkRemoveTagsUnlock else none
    disabled := !userIsAdmin }

/-- The search-and-replace mode switch button. -/
def sarSwitchButton (userIsAdmin : Bool) : NavButton :=
  { onClick := if userIsAdmin then some .searchAndReplaceSwitch else none
    disabled := !userIsAdmin }

/-- The red replace confirmation button (shown in sar mode when both
terms are non-empty). -/
def replaceButton (userIsAdmin : Bool) : NavButton :=
  { onClick := if userIsAdmin then some .handleReplace else none
    disabled := !userIsAdmin }

/-- The admin-gated toolbar buttons, as rendered for a given admin
flag. -/
def adminButtons (userIsAdmin : Bool) : List NavButton :=
  [scanButton userIsAdmin, retagButton userIsAdmin, cleanButton userIsAdmin,
    pruneButton userIsAdmin, bulkRemoveButton userIsAdmin,
    sarSwitchButton userIsAdmin, replaceButton userIsAdmin]

end DataTableNav

/-! ### Helper lemmas about `_setRecordState` -/

theorem setRecordState_page (st : AppState) (r : Record) :
    (_setRecordState st r).record.meta.page =
      (if r.meta.page < 1 then 1 else r.meta.page) := by
  simp [_setRecordState]

theorem one_le_setRecordState_page (st : AppState) (r : Record) :
    1 ≤ (_setRecordState st r).record.meta.page := by
  rw [setRecordState_page]
  split <;> omega

theorem setRecordState_record_data (st : AppState) (r : Record) :
    (_setRecordState st r).record.data = r.data := by
  simp [_setRecordState]

theorem setRecordState_userIsAdmin (st : AppState) (r : Record) :
    (_setRecordState st r).authMeta.userIsAdmin = adminStatusOf r.data := by
  simp only [_setRecordState, setAuthorized]
  by_cases h : adminStatusOf r.data = st.authMeta.userIsAdmin <;> simp [h]

theorem setRecordState_message (st : AppState) (r : Record) :
    (_setRecordState st r).message = st.message := by
  simp only [_setRecordState, setAuthorized]
  split <;> simp

theorem setMessage_record (st : AppState) (m c : String) :
    (setMessage st m c).record = st.record := rfl

theorem getRecordsHandler_fst (st : AppState) (r : Record) (u : Option String) :
    (getRecordsHandler st r u).1 = st := by
  simp only [getRecordsHandler]
  split <;> rfl

theorem applyOp_record_cases (op : Op) (st : AppState) :
    (applyOp op st).1.record = st.record ∨
      1 ≤ (applyOp op st).1.record.meta.page := by
  cases op with
  | opSetAuthentication hasToken =>
    left
    simp only [applyOp, setAuthentication, getRecordsHandler]
    split <;> rfl
  | opGetRecords record url =>
    left
    simp only [applyOp, getRecordsHandler]
    split <;> rfl
  | opGetRecordsSuccess record n resp =>
    right
    exact one_le_setRecordState_page _ _
  | opGetRecordsFailure record =>
    right
    exact one_le_setRecordState_page _ _
  | opReprocess record => exact Or.inl rfl
  | opReprocessSuccess n =>
    left
    simp only [applyOp, reprocessRecordOnSuccess]
    rw [getRecordsHandler_fst]
    cases n <;> rfl
  | opReprocessFailure => exact Or.inl rfl
  | opTagSuggestions term => exact Or.inl rfl
  | opTagSuggestionsSuccess itemID n resp =>
    left
    cases n <;> rfl
  | opTagSuggestionsFailure => exact Or.inl rfl
  | opSearchAndReplace s r =>
    left
    simp only [applyOp, searchAndReplaceHandler]
    split <;> rfl
  | opSearchAndReplaceSuccess n =>
    left
    cases n <;> rfl
  | opSearchAndReplaceFailure => exact Or.inl rfl
  | opPruneTags =>
    left
    simp only [applyOp, handlePruneTags]
    split <;> rfl
  | opPruneTagsSuccess n =>
    left
    cases n <;> rfl
  | opPruneTagsFailure => exact Or.inl rfl
  | opBulkRemoveTags =>
    left
    simp only [applyOp, handleBulkRemoveTags]
    split <;> rfl
  | opBulkRemoveTagsSuccess n =>
    left
    cases n <;> rfl
  | opBulkRemoveTagsFailure => exact Or.inl rfl
  | opProcessPhotos r s c =>
    left
    simp only [applyOp, handleProcessPhotos]
    split <;> rfl
  | opProcessPhotosSuccess r s c n =>
    left
    cases n <;> rfl
  | opProcessPhotosFailure => exact Or.inl rfl
  | opUpdate i t m p =>
    left
    simp only [applyOp, handleUpdate]
    split <;> rfl
  | opUpdateSuccess n resp =>
    right
    cases n
    · exact one_le_setRecordState_page _ _
    · simp only [applyOp, handleUpdateOnSuccess, if_pos, setMessage_record]
      exact one_le_setRecordState_page _ _
  | opUpdateFailure => exact Or.inl rfl

/-! ### Claim theorems -/

/-- C2: every record stored through `_setRecordState` has its `meta.page`
clamped — set to 1 when the incoming page is below 1, left unchanged
otherwise, hence always ≥ 1 — and no modelled operation ever stores a
record state whose `meta.page` is below 1 (operations either leave the
stored record untouched or store one with page ≥ 1). -/
theorem claim_C2 :
    (∀ st r, (_setRecordState st r).record.meta.page =
        (if r.meta.page < 1 then 1 else r.meta.page) ∧
      1 ≤ (_setRecordState st r).record.meta.page) ∧
    (∀ op st, (applyOp op st).1.record = st.record ∨
      1 ≤ (applyOp op st).1.record.meta.page) :=
  ⟨fun st r => ⟨setRecordState_page st r, one_le_setRecordState_page st r⟩,
    fun op st => applyOp_record_cases op st⟩

/-- C6: every symbolic request descriptor in `apiOptions` carries its
fixed HTTP verb — GET for photos, tags, search-and-replace, reprocess and
process-photos; DELETE for prune tags and bulk remove tags; PATCH for
photo update and password change; POST for authentication and logout. -/
theorem claim_C6 :
    apiOptions.GET_PHOTOS.method = "GET" ∧
    apiOptions.GET_TAGS.method = "GET" ∧
    apiOptions.SEARCH_AND_REPLACE.method = "GET" ∧
    apiOptions.REPROCESS_RECORD.method = "GET" ∧
    apiOptions.PROCESS_PHOTOS.method = "GET" ∧
    apiOptions.PRUNE_TAGS.method = "DELETE" ∧
    apiOptions.BULK_REMOVE_TAGS.method = "DELETE" ∧
    apiOptions.UPDATE_PHOTOS.method = "PATCH" ∧
    apiOptions.PATCH_CHANGE_PW.method = "PATCH" ∧
    apiOptions.POST_AUTH.method = "POST" ∧
    apiOptions.POST_LOGOUT.method = "POST" := by
  decide

/-- C10: the manual refresh callback of `DataTableNav` sets the record's
`meta.page` to 1 regardless of the page previously displayed, and leaves
every other meta field (limit, pager sizes, ordering, cursors,
cache-control, search term) and the record data unchanged. -/
theorem claim_C10 (record : Record) :
    (DataTableNav.getRecords record).meta.page = 1 ∧
    (DataTableNav.getRecords record).meta.limit = record.meta.limit ∧
    (DataTableNav.getRecords record).meta.pagerMainSize = record.meta.pagerMainSize ∧
    (DataTableNav.getRecords record).meta.pagerEndSize = record.meta.pagerEndSize ∧
    (DataTableNav.getRecords record).meta.pageOrderBy = record.meta.pageOrderBy ∧
    (DataTableNav.getRecords record).meta.pageOrderDir = record.meta.pageOrderDir ∧
    (DataTableNav.getRecords record).meta.previous = record.meta.previous ∧
    (DataTableNav.getRecords record).meta.next = record.meta.next ∧
    (DataTableNav.getRecords record).meta.cacheControl = record.meta.cacheControl ∧
    (DataTableNav.getRecords record).meta.search = record.meta.search ∧
    (DataTableNav.getRecords record).data = record.data := by
  simp [DataTableNav.getRecords]

/-- Definition following the words of claim C1, for comparison with the
code: the user_is_admin value a GET-photos response asserts, read off
the response itself — the first result's field when results is non-empty
and carries it, else the response's top-level field when present, else
false. -/
def claimAssertedAdmin (resp : GetPhotosResponseData) : Bool :=
  match resp.results with
  | some (r :: _) =>
    match r.user_is_admin with
    | some b => b
    | none => resp.user_is_admin.getD false
  | some [] => resp.user_is_admin.getD false
  | none => resp.user_is_admin.getD false

/-- C1 (counterexample): after authenticating and applying a GET-photos
response that asserts user_is_admin = true without a results key, a
later successful response carrying a present-but-empty results list and
no user_is_admin field leaves the admin flag true, although that
response, read as the claim prescribes, asserts false — the
Object.assign merge in getRecordsHandler lets the earlier top-level
user_is_admin survive into the record handed to _setRecordState. -/
theorem claim_C1_counterexample :
    let st1 := (applyOp (.opSetAuthentication true) (initialState ⟨20, 5, 2⟩)).1
    let r1 : GetPhotosResponseData := { results := none, user_is_admin := some true }
    let st2 := (applyOp (.opGetRecordsSuccess st1.record true r1) st1).1
    let r2 : GetPhotosResponseData := { results := some [], user_is_admin := none }
    let st3 := (applyOp (.opGetRecordsSuccess st2.record true r2) st2).1
    st3.authMeta.userIsAdmin = true ∧ claimAssertedAdmin r2 = false := by
  decide

/-- C1 (amended): after every successful GET-photos response is applied,
authMeta.userIsAdmin equals the admin precedence (first result's
user_is_admin, else top-level user_is_admin, else false) evaluated on
the merged stored record data — response fields override stored ones
where the response carries them, so a previously stored top-level
user_is_admin is retained when the new response has results but asserts
nothing. -/
theorem claim_C1_amended (st : AppState) (record : Record)
    (notifyResponse : Bool) (resp : GetPhotosResponseData) :
    (getRecordsOnSuccess st record notifyResponse resp).authMeta.userIsAdmin =
      adminStatusOf
        (getRecordsOnSuccess st record notifyResponse resp).record.data := by
  simp only [getRecordsOnSuccess]
  rw [setRecordState_userIsAdmin, setRecordState_record_data]

/-- C3 (counterexample): a network failure in handleProcessPhotos does
not produce the banner text "An API error has occurred" — its catch
branch appends a handler-specific suffix, so the message text is not the
same for every handler. -/
theorem claim_C3_counterexample :
    (applyOp .opProcessPhotosFailure (initialState ⟨20, 5, 2⟩)).1.message.message ≠
        "An API error has occurred" ∧
      (applyOp .opProcessPhotosFailure (initialState ⟨20, 5, 2⟩)).1.message =
        { message := "An API error has occurred. Photo processing initiation failed!"
          messageClass := "alert alert-danger" } := by
  decide

/-- C3 (amended): every handler's catch branch converts a network failure
into a banner with message class "alert alert-danger" and a message
extending "An API error has occurred"; the record-fetch, reprocess,
tag-suggestions, search-and-replace, prune-tags and bulk-remove-tags
handlers use exactly that text, while process-photos and update append
handler-specific suffixes to it. -/
theorem claim_C3_amended (st : AppState) (record : Record) :
    (getRecordsOnFailure st record).message =
      { message := "An API error has occurred"
        messageClass := "alert alert-danger" } ∧
    (reprocessRecordOnFailure st).message =
      { message := "An API error has occurred"
        messageClass := "alert alert-danger" } ∧
    (tagSuggestionsOnFailure st).message =
      { message := "An API error has occurred"
        messageClass := "alert alert-danger" } ∧
    (searchAndReplaceOnFailure st).message =
      { message := "An API error has occurred"
        messageClass := "alert alert-danger" } ∧
    (handlePruneTagsOnFailure st).message =
      { message := "An API error has occurred"
        messageClass := "alert alert-danger" } ∧
    (handleBulkRemoveTagsOnFailure st).message =
      { message := "An API error has occurred"
        messageClass := "alert alert-danger" } ∧
    (handleProcessPhotosOnFailure st).message =
      { message := "An API error has occurred" ++ ". Photo processing initiation failed!"
        messageClass := "alert alert-danger" } ∧
    (handleUpdateOnFailure st).message =
      { message := "An API error has occurred" ++ ". Updating tags failed!"
        messageClass := "alert alert-danger" } := by
  refine ⟨?_, rfl, rfl, rfl, rfl, rfl, ?_, ?_⟩
  · simp only [getRecordsOnFailure]
    rw [setRecordState_message]
    rfl
  · simp [handleProcessPhotosOnFailure, setMessage]
  · simp [handleUpdateOnFailure, setMessage]

/-- C4 (counterexample): the record view-model is not replaced wholesale
on every successful API response: after an earlier response stored a
top-level user_is_admin, a later successful GET-photos response with a
results key but no user_is_admin field leaves that previous value in the
stored data, so the stored data does not equal the response's data. -/
theorem claim_C4_counterexample :
    let st1 := (applyOp (.opSetAuthentication true) (initialState ⟨20, 5, 2⟩)).1
    let r1 : GetPhotosResponseData := { results := none, user_is_admin := some true }
    let st2 := (applyOp (.opGetRecordsSuccess st1.record true r1) st1).1
    let r2 : GetPhotosResponseData := { results := some [], user_is_admin := none }
    let st3 := (applyOp (.opGetRecordsSuccess st2.record true r2) st2).1
    st3.record.data = { results := [], user_is_admin := some true } ∧
      r2.user_is_admin = none := by
  decide

/-- C4 (amended): a successful GET-photos response replaces the stored
results with the response's whenever the response carries a results key,
but top-level fields are Object.assign-merged: a user_is_admin value
present on the response overwrites the stored one while an absent key
leaves the previously stored value in place; a successful update
response is merged item-wise into every stored result with matching id —
the merged item takes the response's id and tags, and keeps its stored
user_is_admin when the response body lacks that key. -/
theorem claim_C4_amended (st : AppState) (record : Record)
    (notifyResponse : Bool) (resp : GetPhotosResponseData)
    (rs : List ResultItem) (h : resp.results = some rs)
    (stU : AppState) (nU : Bool) (respU old : ResultItem) :
    (getRecordsOnSuccess st record notifyResponse resp).record.data.results = rs ∧
    (getRecordsOnSuccess st record notifyResponse resp).record.data.user_is_admin =
      (match resp.user_is_admin with
        | some b => some b
        | none => st.record.data.user_is_admin) ∧
    (handleUpdateOnSuccess stU nU respU).record.data.results =
      stU.record.data.results.map
        (fun r => if r.id = respU.id then mergeItem r respU else r) ∧
    (mergeItem old respU).id = respU.id ∧
    (mergeItem old respU).tags = respU.tags ∧
    (mergeItem old respU).user_is_admin =
      (match respU.user_is_admin with
        | some b => some b
        | none => old.user_is_admin) := by
  refine ⟨?_, ?_, ?_, rfl, rfl, rfl⟩
  · simp only [getRecordsOnSuccess]
    rw [setRecordState_record_data]
    cases notifyResponse <;>
      simp [mergedRecordData, mergeData, h, setMessage]
  · simp only [getRecordsOnSuccess]
    rw [setRecordState_record_data]
    cases notifyResponse <;>
      simp [mergedRecordData, mergeData, h, setMessage]
  · simp only [handleUpdateOnSuccess]
    cases nU <;>
      simp only [Bool.false_eq_true, if_false, if_true, setMessage_record] <;>
      rw [setRecordState_record_data]

/-- C4 (amended, witness): the amended statement applied at a concrete
state, GET-photos response and update response. -/
theorem claim_C4_amended_witness :
    ({ results := some [], user_is_admin := some true } :
        GetPhotosResponseData).results = some [] ∧
    ((getRecordsOnSuccess (initialState ⟨1, 1, 1⟩) (initialState ⟨1, 1, 1⟩).record
        true { results := some [], user_is_admin := some true }).record.data.results = [] ∧
      (getRecordsOnSuccess (initialState ⟨1, 1, 1⟩) (initialState ⟨1, 1, 1⟩).record
        true { results := some [], user_is_admin := some true }).record.data.user_is_admin =
        some true ∧
      (handleUpdateOnSuccess (initialState ⟨1, 1, 1⟩) false
          { id := 1, tags := [], user_is_admin := some true }).record.data.results =
        (initialState ⟨1, 1, 1⟩).record.data.results.map
          (fun r => if r.id = ({ id := 1, tags := [], user_is_admin := some true } :
              ResultItem).id then
            mergeItem r { id := 1, tags := [], user_is_admin := some true } else r) ∧
      (mergeItem { id := 1, tags := [], user_is_admin := none }
          { id := 1, tags := [], user_is_admin := some true }).id =
        ({ id := 1, tags := [], user_is_admin := some true } : ResultItem).id ∧
      (mergeItem { id := 1, tags := [], user_is_admin := none }
          { id := 1, tags := [], user_is_admin := some true }).tags =
        ({ id := 1, tags := [], user_is_admin := some true } : ResultItem).tags ∧
      (mergeItem { id := 1, tags := [], user_is_admin := none }
          { id := 1, tags := [], user_is_admin := some true }).user_is_admin =
        some true) :=
  ⟨rfl,
    claim_C4_amended (initialState ⟨1, 1, 1⟩) (initialState ⟨1, 1, 1⟩).record
      true { results := some [], user_is_admin := some true } [] rfl
      (initialState ⟨1, 1, 1⟩) false
      { id := 1, tags := [], user_is_admin := some true }
      { id := 1, tags := [], user_is_admin := none }⟩

/-- C5 (counterexample): an authenticated state whose userIsAdmin is
false — exactly the state reached by logging in before any response
asserts admin status — still dispatches the prune-tags, process-photos
and bulk-remove-tags requests when the handlers are invoked: the
handlers consult only authMeta.authenticated. -/
theorem claim_C5_counterexample :
    let st1 := (applyOp (.opSetAuthentication true) (initialState ⟨20, 5, 2⟩)).1
    st1.authMeta.authenticated = true ∧
    st1.authMeta.userIsAdmin = false ∧
    (applyOp .opPruneTags st1).2 = [.pruneTags] ∧
    (applyOp (.opProcessPhotos false true false) st1).2 =
      [.processPhotos false true false] ∧
    (applyOp .opBulkRemoveTags st1).2 = [.bulkRemoveTags] := by
  decide

/-- C5 (amended): the admin gating of the batch jobs lives in the
toolbar rendering, not in the handlers: for a non-admin every batch-job
button of DataTableNav is rendered disabled with a null click handler,
while the handlers themselves consult only authMeta.authenticated and
dispatch their request for any authenticated invocation regardless of
userIsAdmin. -/
theorem claim_C5_amended :
    (∀ b ∈ DataTableNav.adminButtons false, b.onClick = none ∧ b.disabled = true) ∧
    (∀ st : AppState, st.authMeta.authenticated = true →
      (handlePruneTags st).2 = [.pruneTags] ∧
      (handleBulkRemoveTags st).2 = [.bulkRemoveTags] ∧
      (∀ retag scan clean_db,
        (handleProcessPhotos st retag scan clean_db).2 =
          [.processPhotos retag scan clean_db]) ∧
      (∀ s r, s ≠ "" → r ≠ "" →
        (searchAndReplaceHandler st s r).2 = [.searchAndReplace s r])) := by
  constructor
  · decide
  · intro st h
    refine ⟨?_, ?_, ?_, ?_⟩
    · simp [handlePruneTags, h]
    · simp [handleBulkRemoveTags, h]
    · intro retag scan clean_db
      simp [handleProcessPhotos, h]
    · intro s r hs hr
      simp [searchAndReplaceHandler, h, hs, hr]

/-- C5 (amended, witness): the amended statement applied to a concrete
authenticated non-admin state and to a concrete disabled button. -/
theorem claim_C5_amended_witness :
    (DataTableNav.pruneButton false).onClick = none ∧
    ({ initialState ⟨1, 1, 1⟩ with
        authMeta := { authenticated := true, userIsAdmin := false } } :
      AppState).authMeta.authenticated = true ∧
    (handlePruneTags { initialState ⟨1, 1, 1⟩ with
        authMeta := { authenticated := true, userIsAdmin := false } }).2 =
      [.pruneTags] ∧
    (searchAndReplaceHandler { initialState ⟨1, 1, 1⟩ with
        authMeta := { authenticated := true, userIsAdmin := false } } "a" "b").2 =
      [.searchAndReplace "a" "b"] := by
  refine ⟨(claim_C5_amended.1 (DataTableNav.pruneButton false) (by decide)).1,
    rfl, ?_, ?_⟩
  · exact (claim_C5_amended.2 { initialState ⟨1, 1, 1⟩ with
      authMeta := { authenticated := true, userIsAdmin := false } } rfl).1
  · exact (claim_C5_amended.2 { initialState ⟨1, 1, 1⟩ with
      authMeta := { authenticated := true, userIsAdmin := false } } rfl).2.2.2
      "a" "b" (by decide) (by decide)

/-- C7: each modelled phase dispatches at most one network request —
every handler's synchronous phase fires at most one processRequest call
and every promise continuation at most one — and the only follow-up
request, the record refresh after a successful reprocess, is dispatched
by the success continuation (which runs only once the reprocess response
has resolved): the reprocess invocation itself dispatches only
REPROCESS_RECORD requests and its success continuation only GET_PHOTOS
requests. -/
theorem claim_C7 :
    (∀ op st, (applyOp op st).2.length ≤ 1) ∧
    (∀ st record, ∀ c ∈ (reprocessRecordHandler st record).2,
      c.apiMode = apiOptions.REPROCESS_RECORD) ∧
    (∀ st n, ∀ c ∈ (reprocessRecordOnSuccess st n).2,
      c.apiMode = apiOptions.GET_PHOTOS) := by
  refine ⟨?_, ?_, ?_⟩
  · intro op st
    cases op <;>
      simp only [applyOp, setAuthentication, getRecordsHandler,
        reprocessRecordHandler, reprocessRecordOnSuccess, tagSuggestionsHandler,
        searchAndReplaceHandler, handlePruneTags, handleBulkRemoveTags,
        handleProcessPhotos, handleUpdate] <;>
      (try split) <;> (try split) <;> simp
  · intro st record c hc
    cases record with
    | none => simp [reprocessRecordHandler] at hc
    | some r =>
      simp only [reprocessRecordHandler] at hc
      split at hc
      · simp at hc
        subst hc
        rfl
      · simp at hc
  · intro st n c hc
    have h2 : ∀ st' : AppState, ∀ c' ∈ (getRecordsHandler st' st'.record none).2,
        c'.apiMode = apiOptions.GET_PHOTOS := by
      intro st' c' hc'
      simp only [getRecordsHandler] at hc'
      split at hc'
      · simp at hc'
        subst hc'
        rfl
      · simp at hc'
    cases n
    · exact h2 st c hc
    · exact h2 (setMessage st "Reprocessing task initiated!" "alert alert-success") c hc

/-- C7 (witness): the bounds and phase characterisations applied at
concrete authenticated states and concrete dispatched calls. -/
theorem claim_C7_witness :
    (applyOp .opPruneTags (initialState ⟨1, 1, 1⟩)).2.length ≤ 1 ∧
    (RequestCall.reprocess (initialState ⟨1, 1, 1⟩).record).apiMode =
      apiOptions.REPROCESS_RECORD ∧
    (RequestCall.getPhotos none (initialState ⟨1, 1, 1⟩).record).apiMode =
      apiOptions.GET_PHOTOS := by
  refine ⟨claim_C7.1 .opPruneTags (initialState ⟨1, 1, 1⟩), ?_, ?_⟩
  · exact claim_C7.2.1
      { initialState ⟨1, 1, 1⟩ with
        authMeta := { authenticated := true, userIsAdmin := false } }
      (some (initialState ⟨1, 1, 1⟩).record)
      (RequestCall.reprocess (initialState ⟨1, 1, 1⟩).record) (by decide)
  · exact claim_C7.2.2
      { initialState ⟨1, 1, 1⟩ with
        authMeta := { authenticated := true, userIsAdmin := false } } true
      (RequestCall.getPhotos none (initialState ⟨1, 1, 1⟩).record) (by decide)

/-- C8 (counterexample): typing an input with a character outside the
allowed set into the replace field does not leave the previously stored
replace term unchanged: validateTerm's fallback is the closed-over
search term, so the replace term "xyz" is overwritten with the search
term "abc". -/
theorem claim_C8_counterexample :
    ("é".data.all DataTableNav.termChar) = false ∧
    (DataTableNav.handleReplaceChange
        { term := "abc", replaceTerm := "xyz", sar := true } "é").replaceTerm ≠
      "xyz" ∧
    (DataTableNav.handleReplaceChange
        { term := "abc", replaceTerm := "xyz", sar := true } "é").replaceTerm =
      "abc" := by
  decide

/-- C8 (amended): an input whose characters all lie in the allowed set is
stored verbatim in whichever field is edited; an input with a character
outside the set leaves the search term unchanged, but sets the replace
term to the current search term (validateTerm's fallback closes over the
search term for both fields). -/
theorem claim_C8_amended (ns : DataTableNav.NavState) (v : String) :
    (v.data.all DataTableNav.termChar = true →
      (DataTableNav.handleChange ns v).1.term = v ∧
      (DataTableNav.handleReplaceChange ns v).replaceTerm = v) ∧
    (v.data.all DataTableNav.termChar = false →
      (DataTableNav.handleChange ns v).1.term = ns.term ∧
      (DataTableNav.handleReplaceChange ns v).replaceTerm = ns.term) := by
  constructor <;> intro h <;>
    simp [DataTableNav.handleChange, DataTableNav.handleReplaceChange,
      DataTableNav.validateTerm, h]

/-- C8 (amended, witness): the amended statement applied to a valid and
to an invalid concrete input. -/
theorem claim_C8_amended_witness :
    ("ok".data.all DataTableNav.termChar = true ∧
      (DataTableNav.handleChange
          { term := "abc", replaceTerm := "xyz", sar := false } "ok").1.term = "ok" ∧
      (DataTableNav.handleReplaceChange
          { term := "abc", replaceTerm := "xyz", sar := false } "ok").replaceTerm =
        "ok") ∧
    ("é".data.all DataTableNav.termChar = false ∧
      (DataTableNav.handleChange
          { term := "abc", replaceTerm := "xyz", sar := false } "é").1.term = "abc" ∧
      (DataTableNav.handleReplaceChange
          { term := "abc", replaceTerm := "xyz", sar := false } "é").replaceTerm =
        "abc") :=
  ⟨⟨by decide,
      (claim_C8_amended { term := "abc", replaceTerm := "xyz", sar := false }
        "ok").1 (by decide)⟩,
    ⟨by decide,
      (claim_C8_amended { term := "abc", replaceTerm := "xyz", sar := false }
        "é").2 (by decide)⟩⟩

/-- C9: every invocation of tagSuggestionsHandler synchronously resets
tagSuggestions to no item and no suggestions — also when a non-empty
term is given while authenticated, in which case exactly one GET_TAGS
request is dispatched; only the success continuation sets
tagSuggestions, to the closed-over itemID together with the tag field of
every response result in order, and the failure continuation leaves
tagSuggestions untouched. -/
theorem claim_C9 :
    (∀ st term, (tagSuggestionsHandler st term).1.tagSuggestions =
      { itemID := none, suggestions := [] }) ∧
    (∀ st term, st.authMeta.authenticated = true → term ≠ "" →
      (tagSuggestionsHandler st term).2 = [.getTags term]) ∧
    (∀ st itemID notifyResponse resp,
      (tagSuggestionsOnSuccess st itemID notifyResponse resp).tagSuggestions =
        { itemID := itemID, suggestions := resp.results.map (fun r => r.tag) }) ∧
    (∀ st, (tagSuggestionsOnFailure st).tagSuggestions = st.tagSuggestions) := by
  refine ⟨fun st term => rfl, ?_, fun st i n resp => rfl, fun st => rfl⟩
  intro st term h ht
  simp [tagSuggestionsHandler, h, ht]

/-- C9 (witness): the dispatch conjunct applied at a concrete
authenticated state and non-empty term. -/
theorem claim_C9_witness :
    ({ initialState ⟨1, 1, 1⟩ with
        authMeta := { authenticated := true, userIsAdmin := false } } :
      AppState).authMeta.authenticated = true ∧
    ("cat" : String) ≠ "" ∧
    (tagSuggestionsHandler
        { initialState ⟨1, 1, 1⟩ with
          authMeta := { authenticated := true, userIsAdmin := false } } "cat").2 =
      [.getTags "cat"] :=
  ⟨rfl, by decide,
    claim_C9.2.1
      { initialState ⟨1, 1, 1⟩ with
        authMeta := { authenticated := true, userIsAdmin := false } } "cat"
      rfl (by decide)⟩

end SPM
